import Mathlib

/-!
Shallow embedding of the copilot_mcp_tool repository (Rust) for checking its
natural-language specification.  Pure functions of the source are translated
into Lean functions; stateful code (lock file, process table, socket traffic)
is translated into explicit state passing.  JSON values are modelled by an
inductive `Json` type with integer numbers (the messages of this codebase use
only integers); serialization of `Json` to bytes is performed by the external
serde_json library and is modelled at the AST level, with the newline framing
of the wire protocol modelled explicitly on strings.
-/

namespace CopilotMcp

/-- Model of serde_json::Value restricted to integer numbers.  Objects are
assoc lists of fields in serialization order. -/
inductive Json where
| null : Json
| bool (b : Bool) : Json
| num (n : Int) : Json
| str (s : String) : Json
| arr (xs : List Json) : Json
| obj (fields : List (String × Json)) : Json
deriving Repr

/-- Compare a needle with an initial segment of a list of characters. -/
def leadsChars : List Char → List Char → Bool
| [], _ => true
| _ :: _, [] => false
| a :: as, b :: bs => a == b && leadsChars as bs

/-- Whether the needle occurs contiguously inside the haystack. -/
def containsSub (needle : List Char) : List Char → Bool
| [] => leadsChars needle []
| h :: t => leadsChars needle (h :: t) || containsSub needle t

/-- Whether the string `needle` occurs contiguously inside `hay`. -/
def strContainsSub (needle hay : String) : Bool :=
containsSub needle.data hay.data

-- --- Lock File Management (src/main.rs lines 26..55, 145..160) ---

/-- LockData from src/main.rs: `struct LockData { pid: u32, port: u16 }`. -/
structure LockData where
pid : Nat
port : Nat
deriving Repr, DecidableEq

/-- The possible states of the lock file at the fixed temp path: absent,
present but not parseable as a LockData record, or a valid record. -/
inductive LockFile where
| absent : LockFile
| malformed : LockFile
| valid (d : LockData) : LockFile
deriving Repr, DecidableEq

/-- The process-wide state seen by the lock-file manager: the lock file and
the OS process table (the list of live pids, as consulted through
`sysinfo::System::new_all`). -/
structure SysState where
fs : LockFile
live : List Nat
deriving Repr, DecidableEq

/-- read_lock_file from src/main.rs: reads and parses the lock file; an
absent or malformed file is an error. -/
def read_lock_file (s : SysState) : Except String LockData :=
match s.fs with
| .valid d => .ok d
| .absent => .error "NotFound"
| .malformed => .error "ParseError"

/-- server_is_running from src/main.rs lines 47..55: reads the lock record
and checks the recorded pid against the live process table; performs no
filesystem write, so the state component of the result is the input state. -/
def server_is_running (s : SysState) : Option LockData × SysState :=
match read_lock_file s with
| .ok data => if data.pid ∈ s.live then (some data, s) else (none, s)
| .error _ => (none, s)

/-- Outcome reported by stop_server. -/
inductive StopOutcome where
| stopped : StopOutcome
| notRunning : StopOutcome
deriving Repr, DecidableEq

/-- stop_server from src/main.rs lines 145..160: when server_is_running
reports a live record it kills that pid (removes it from the process table)
and removes the lock file; otherwise it logs that the server is not running
and returns Ok without touching the filesystem. -/
def stop_server (s : SysState) : StopOutcome × SysState :=
match (server_is_running s).1 with
| some d => (.stopped, { fs := .absent, live := s.live.filter (fun p => p ≠ d.pid) })
| none => (.notRunning, s)

-- --- Nested tool chain (src/level3_tool_module.rs, src/level2_tool_module.rs,
-- src/tool_server_module.rs) ---

/-- EchoInput from src/level3_tool_module.rs. -/
structure L3EchoInput where
message : String

/-- EchoTool::echo from src/level3_tool_module.rs lines 16..18. -/
def EchoTool.echo (input : L3EchoInput) : String :=
"Echo: " ++ input.message

/-- TimeInput from src/level2_tool_module.rs. -/
structure TimeInput where
location : String

/-- TimeTool::get_time_in_location from src/level2_tool_module.rs lines
19..31.  The second component counts how many times the handler invoked the
Echo tool (the only side channel of the source function is that in-process
delegation). -/
def TimeTool.get_time_in_location (input : TimeInput) : String × Nat :=
if input.location = "EchoCity" then
  let echo_result := EchoTool.echo { message := "Time for " ++ input.location }
  ("The current time in " ++ input.location ++ " is 12:00 PM. " ++ echo_result, 1)
else
  ("The current time in " ++ input.location ++ " is 12:00 PM.", 0)

/-- WeatherInput from src/tool_server_module.rs. -/
structure WeatherInput where
location : String

/-- WeatherTool::get_weather from src/tool_server_module.rs lines 19..31.
The second component counts invocations of the Time tool and the third counts
(transitive) invocations of the Echo tool. -/
def WeatherTool.get_weather (input : WeatherInput) : String × Nat × Nat :=
if input.location = "TimeCity" then
  let time_result := TimeTool.get_time_in_location { location := input.location }
  ("Weather in TimeCity is sunny, and " ++ time_result.1, 1, time_result.2)
else
  ("The weather in " ++ input.location ++ " is sunny.", 0, 0)

-- --- Tool dispatch (src/main.rs lines 219..300) and system commands
-- (src/system_commands.rs) ---

/-- Error type of tool dispatch.  Modelled from the spec: CallError is
{code, message}; the distinguished kinds carry the JSON-RPC codes used by
the external rmcp library (method_not_found = -32601,
invalid_params = -32602). -/
structure McpError where
code : Int
message : String
deriving Repr, DecidableEq

/-- McpError::method_not_found (rmcp, JSON-RPC code -32601). -/
def McpError.method_not_found : McpError :=
{ code := -32601, message := "Method not found" }

/-- McpError::invalid_params (rmcp, JSON-RPC code -32602). -/
def McpError.invalid_params (msg : String) : McpError :=
{ code := -32602, message := msg }

/-- rmcp CallToolResult: a structured success payload or a structured error
payload, never both. -/
inductive CallToolResult where
| structured (v : Json) : CallToolResult
| structuredError (v : Json) : CallToolResult
deriving Repr

/-- KillProcessInput from src/system_commands.rs: `{ pid: u32 }`. -/
structure KillProcessInput where
pid : Nat
deriving Repr, DecidableEq

/-- LibSystemCommand::kill_process from src/system_commands.rs lines
97..103: a placeholder structured error. -/
def LibSystemCommand.kill_process (input : KillProcessInput) : CallToolResult :=
.structuredError (.obj [("error", .str ("LibSystemCommand::kill_process for PID "
  ++ toString input.pid ++ " not yet implemented."))])

/-- LibSystemCommand::list_processes from src/system_commands.rs. -/
def LibSystemCommand.list_processes : CallToolResult :=
.structuredError (.obj [("error", .str "LibSystemCommand::list_processes not yet implemented.")])

/-- LibSystemCommand::get_memory_usage from src/system_commands.rs. -/
def LibSystemCommand.get_memory_usage : CallToolResult :=
.structuredError (.obj [("error", .str "LibSystemCommand::get_memory_usage not yet implemented.")])

/-- LibSystemCommand::get_disk_usage from src/system_commands.rs. -/
def LibSystemCommand.get_disk_usage : CallToolResult :=
.structuredError (.obj [("error", .str "LibSystemCommand::get_disk_usage not yet implemented.")])

/-- LibSystemCommand::list_ports from src/system_commands.rs. -/
def LibSystemCommand.list_ports : CallToolResult :=
.structuredError (.obj [("error", .str "LibSystemCommand::list_ports not yet implemented.")])

/-- Result of running an external process: exit status success flag plus
captured stdout and stderr (std::process::Output). -/
structure ProcessOutput where
success : Bool
stdout : String
stderr : String
deriving Repr, DecidableEq

/-- The platform utility and arguments chosen by BinSystemCommand::
kill_process (src/system_commands.rs lines 149..162): taskkill on Windows,
kill -9 on linux/macos. -/
def BinSystemCommand.killCommand (os : String) (pid : Nat) : String × List String :=
if os = "windows" then ("taskkill", ["/PID", toString pid, "/F"])
else ("kill", ["-9", toString pid])

/-- BinSystemCommand::kill_process from src/system_commands.rs lines
147..186.  The OS name and the outcome of invoking the external binary are
inputs (the run oracle stands for tokio::process::Command::output): an
unsupported OS, a failed spawn, and a non-success exit status each become a
structured error whose payload embeds the underlying failure text. -/
def BinSystemCommand.kill_process (os : String)
    (run : String × List String → Except String ProcessOutput)
    (input : KillProcessInput) : CallToolResult :=
let pid := input.pid
if os = "windows" ∨ os = "linux" ∨ os = "macos" then
  match run (BinSystemCommand.killCommand os pid) with
  | .ok output =>
    if output.success then
      .structured (.obj [("message", .str ("Process " ++ toString pid ++ " killed successfully."))])
    else
      .structuredError (.obj
        [("error", .str ("Failed to kill process " ++ toString pid ++ ": " ++ output.stderr)),
         ("stdout", .str output.stdout),
         ("stderr", .str output.stderr)])
  | .error e =>
    .structuredError (.obj
      [("error", .str ("Failed to execute kill command for PID " ++ toString pid ++ ": " ++ e))])
else
  .structuredError (.obj [("error", .str ("Unsupported operating system: " ++ os))])

/-- BinSystemCommand::list_processes from src/system_commands.rs. -/
def BinSystemCommand.list_processes : CallToolResult :=
.structuredError (.obj [("error", .str "BinSystemCommand::list_processes not yet implemented.")])

/-- BinSystemCommand::get_memory_usage from src/system_commands.rs. -/
def BinSystemCommand.get_memory_usage : CallToolResult :=
.structuredError (.obj [("error", .str "BinSystemCommand::get_memory_usage not yet implemented.")])

/-- BinSystemCommand::get_disk_usage from src/system_commands.rs. -/
def BinSystemCommand.get_disk_usage : CallToolResult :=
.structuredError (.obj [("error", .str "BinSystemCommand::get_disk_usage not yet implemented.")])

/-- BinSystemCommand::list_ports from src/system_commands.rs. -/
def BinSystemCommand.list_ports : CallToolResult :=
.structuredError (.obj [("error", .str "BinSystemCommand::list_ports not yet implemented.")])

/-- EchoInput from src/main.rs: `{ message: String }`. -/
structure EchoInput where
message : String
deriving Repr, DecidableEq

/-- serde_json deserialization of EchoInput from an arguments object: the
field "message" must be present and be a JSON string; unknown fields are
ignored (serde default). -/
def parseEchoInput (args : List (String × Json)) : Option EchoInput :=
match args.lookup "message" with
| some (.str s) => some { message := s }
| _ => none

/-- serde_json deserialization of KillProcessInput from an arguments object:
the field "pid" must be present and be an integer fitting in u32. -/
def parseKillProcessInput (args : List (String × Json)) : Option KillProcessInput :=
match args.lookup "pid" with
| some (.num n) => if 0 ≤ n ∧ n < 4294967296 then some { pid := n.toNat } else none
| _ => none

/-- EchoServerTool::call_tool from src/main.rs lines 242..266: dispatch on
the requested tool name; "echo_message" echoes the parsed message,
"kill_process" delegates to the SystemCommand backend (the kill parameter,
LibSystemCommand in the default server), and any other name is answered
with McpError::method_not_found.  Argument deserialization failures become
invalid_params errors. -/
def EchoServerTool.call_tool (kill : KillProcessInput → CallToolResult)
    (name : String) (args : List (String × Json)) : Except McpError CallToolResult :=
if name = "echo_message" then
  match parseEchoInput args with
  | some input => .ok (.structured (.str ("Echoing: " ++ input.message)))
  | none => .error (McpError.invalid_params "invalid arguments for EchoInput")
else if name = "kill_process" then
  match parseKillProcessInput args with
  | some input => .ok (kill input)
  | none => .error (McpError.invalid_params "invalid arguments for KillProcessInput")
else
  .error McpError.method_not_found

/-- ToolDescriptor: name, description and input schema of one registered
tool (rmcp model::Tool restricted to the fields the source populates). -/
structure ToolDescriptor where
name : String
description : String
input_schema : Json

/-- JSON schema generated for EchoInput.  Modelled from the spec: schema
generation is performed by the external schemars library
(schema_for_type::<EchoInput>), a structural object schema requiring a
string field "message". -/
def EchoInputSchema : Json :=
.obj [("type", .str "object"),
      ("properties", .obj [("message", .obj [("type", .str "string")])]),
      ("required", .arr [.str "message"])]

/-- JSON schema generated for KillProcessInput.  Modelled from the spec:
schema_for_type::<KillProcessInput>, a structural object schema requiring a
u32 field "pid". -/
def KillProcessInputSchema : Json :=
.obj [("type", .str "object"),
      ("properties", .obj [("pid", .obj [("type", .str "integer"), ("format", .str "uint32"),
        ("minimum", .num 0)])]),
      ("required", .arr [.str "pid"])]

/-- EchoServerTool::list_tools from src/main.rs lines 268..299: the fixed
registry, in registration order. -/
def EchoServerTool.list_tools : List ToolDescriptor :=
[{ name := "echo_message", description := "Echoes a message back",
   input_schema := EchoInputSchema },
 { name := "kill_process", description := "Kills a process by PID.",
   input_schema := KillProcessInputSchema }]

/-- Whether a JSON value conforms to the primitive type named by a JSON
schema "type" keyword. -/
def typeMatches (ty : String) (v : Json) : Bool :=
match ty, v with
| "string", .str _ => true
| "integer", .num _ => true
| "boolean", .bool _ => true
| "array", .arr _ => true
| "object", .obj _ => true
| "null", .null => true
| _, _ => false

/-- Check one object field against the "properties" entry of a schema
(absent or non-typed property specifications constrain nothing). -/
def fieldMatches (props : List (String × Json)) (key : String) (v : Json) : Bool :=
match props.lookup key with
| some (.obj spec) =>
  match spec.lookup "type" with
  | some (.str ty) => typeMatches ty v
  | _ => true
| _ => true

/-- Modelled from the spec: structural JSON-schema validation of an input
object — the input must be an object, every "required" key must be present,
and every present field must match its declared property type. -/
def validateObjectSchema (schema input : Json) : Bool :=
match schema, input with
| .obj s, .obj fields =>
  let req := match s.lookup "required" with | some (.arr r) => r | _ => []
  let props := match s.lookup "properties" with | some (.obj p) => p | _ => []
  (match s.lookup "type" with | some (.str "object") => true | _ => false)
  && req.all (fun r => match r with | .str k => fields.any (fun f => f.1 = k) | _ => false)
  && fields.all (fun f => fieldMatches props f.1 f.2)
| _, _ => false

-- --- Theorems for claims C1, C2, C3, C9 ---

/-- C2: for every lock file whose record has a pid present in the live OS
process table, server_is_running returns that record (and leaves the state,
in particular the lock file, unchanged); for a record whose pid is not live
it reports not running and likewise leaves the lock file on disk unchanged. -/
theorem C2_server_is_running_liveness (s : SysState) (d : LockData)
    (h : s.fs = .valid d) :
    (d.pid ∈ s.live → server_is_running s = (some d, s)) ∧
    (d.pid ∉ s.live → server_is_running s = (none, s)) := by
constructor
· intro hl
  simp [server_is_running, read_lock_file, h, hl]
· intro hl
  simp [server_is_running, read_lock_file, h, hl]

/-- Witness for C2 at concrete states: pid 7 live, pid 8 dead. -/
theorem C2_witness :
    server_is_running { fs := .valid { pid := 7, port := 9 }, live := [7] } =
      (some { pid := 7, port := 9 }, { fs := .valid { pid := 7, port := 9 }, live := [7] }) ∧
    server_is_running { fs := .valid { pid := 8, port := 9 }, live := [7] } =
      (none, { fs := .valid { pid := 8, port := 9 }, live := [7] }) := by
refine ⟨?_, ?_⟩
· exact (C2_server_is_running_liveness _ { pid := 7, port := 9 } rfl).1 (by decide)
· exact (C2_server_is_running_liveness _ { pid := 8, port := 9 } rfl).2 (by decide)

/-- A filesystem state with a lock file whose recorded pid 42 is dead. -/
def staleState : SysState := { fs := .valid { pid := 42, port := 5000 }, live := [] }

/-- C3 counterexample: with a lock file present but its recorded pid dead,
the explicit stop operation does NOT delete the lock file — it reports not
running and leaves the state unchanged, refuting the claim that stop deletes
the lock file whenever it exists. -/
theorem C3_counterexample :
    stop_server staleState = (.notRunning, staleState) ∧
    (stop_server staleState).2.fs = .valid { pid := 42, port := 5000 } := by
decide

/-- C3 amended: the explicit stop operation deletes the lock file exactly
when the recorded pid is live (it also kills that pid); with a dead recorded
pid it reports not running and leaves the stale file on disk; and stop when
the lock file is absent is not an error and changes nothing (idempotent). -/
theorem C3_stop_server_behavior (s : SysState) (d : LockData) :
    (s.fs = .valid d → d.pid ∈ s.live →
      stop_server s =
        (.stopped, { fs := .absent, live := s.live.filter (fun p => p ≠ d.pid) })) ∧
    (s.fs = .valid d → d.pid ∉ s.live → stop_server s = (.notRunning, s)) ∧
    (s.fs = .absent → stop_server s = (.notRunning, s)) := by
refine ⟨?_, ?_, ?_⟩
· intro h hl
  simp [stop_server, server_is_running, read_lock_file, h, hl]
· intro h hl
  simp [stop_server, server_is_running, read_lock_file, h, hl]
· intro h
  simp [stop_server, server_is_running, read_lock_file, h]

/-- Witness for C3 at concrete states: a live server is stopped and its lock
file deleted; stop on an absent lock file is a no-op. -/
theorem C3_witness :
    stop_server { fs := .valid { pid := 7, port := 9 }, live := [7] } =
      (.stopped, { fs := .absent, live := [] }) ∧
    stop_server { fs := .absent, live := [] } =
      (.notRunning, { fs := .absent, live := [] }) := by
refine ⟨?_, ?_⟩
· have h := (C3_stop_server_behavior { fs := .valid { pid := 7, port := 9 }, live := [7] }
    { pid := 7, port := 9 }).1 rfl (by decide)
  simpa using h
· exact (C3_stop_server_behavior _ { pid := 7, port := 9 }).2.2 rfl

/-- C1 counterexample: calling get_weather with location "TimeCity" performs
zero Echo-tool invocations and its result does not embed any Echo output
(the Echo tool prefixes every output with "Echo:", which does not occur in
the weather result), refuting the claim that the Weather→Time→Echo chain is
exercised end to end for "TimeCity". -/
theorem C1_counterexample :
    (WeatherTool.get_weather { location := "TimeCity" }).2.2 = 0 ∧
    strContainsSub "Echo:" (WeatherTool.get_weather { location := "TimeCity" }).1 = false := by
constructor
· rfl
· rfl

/-- C1 amended: calling get_weather with location "TimeCity" embeds the Time
tool output for "TimeCity" (exactly one Time invocation), but that Time call
performs no Echo invocation; the Time→Echo link is only exercised when the
Time tool itself is called with location "EchoCity", whose output embeds the
Echo output for the derived message "Time for EchoCity". -/
theorem C1_composition_chain :
    (WeatherTool.get_weather { location := "TimeCity" }).2.1 = 1 ∧
    strContainsSub (TimeTool.get_time_in_location { location := "TimeCity" }).1
      (WeatherTool.get_weather { location := "TimeCity" }).1 = true ∧
    (TimeTool.get_time_in_location { location := "TimeCity" }).2 = 0 ∧
    (TimeTool.get_time_in_location { location := "EchoCity" }).2 = 1 ∧
    strContainsSub (EchoTool.echo { message := "Time for EchoCity" })
      (TimeTool.get_time_in_location { location := "EchoCity" }).1 = true := by
refine ⟨rfl, rfl, rfl, rfl, rfl⟩

/-- C9: for every location other than "TimeCity", get_weather returns
exactly "The weather in {location} is sunny." with zero Time and Echo
invocations; for every location other than "EchoCity",
get_time_in_location returns exactly "The current time in {location} is
12:00 PM." with zero Echo invocations. -/
theorem C9_default_branches (loc : String) :
    (loc ≠ "TimeCity" →
      WeatherTool.get_weather { location := loc } =
        ("The weather in " ++ loc ++ " is sunny.", 0, 0)) ∧
    (loc ≠ "EchoCity" →
      TimeTool.get_time_in_location { location := loc } =
        ("The current time in " ++ loc ++ " is 12:00 PM.", 0)) := by
constructor
· intro h
  simp [WeatherTool.get_weather, h]
· intro h
  simp [TimeTool.get_time_in_location, h]

/-- Witness for C9 at the concrete location "Paris". -/
theorem C9_witness :
    WeatherTool.get_weather { location := "Paris" } =
      ("The weather in " ++ "Paris" ++ " is sunny.", 0, 0) ∧
    TimeTool.get_time_in_location { location := "Paris" } =
      ("The current time in " ++ "Paris" ++ " is 12:00 PM.", 0) := by
exact ⟨(C9_default_branches "Paris").1 (by decide), (C9_default_branches "Paris").2 (by decide)⟩

-- --- Protocol codec (src/client.rs lines 16..49, 69..90; wire shapes per
-- the protocol) ---

/-- RpcError from src/client.rs: `{ code: i64, message: String,
data: Option<Value> }`. -/
structure RpcError where
code : Int
message : String
data : Option Json

/-- RpcResult from src/client.rs: an untagged union of a success payload
(field "result") and an error payload (field "error"); never both. -/
inductive RpcResult where
| success (result : Json) : RpcResult
| error (e : RpcError) : RpcResult

/-- RpcMessage: tagged union of {Request: id, method, params},
{Notification: method, optional params} (both from src/client.rs, where the
id is a u64) and {Response: id, result or error} (wire shape of the
protocol). -/
inductive RpcMessage where
| request (id : Nat) (method : String) (params : Json) : RpcMessage
| notification (method : String) (params : Option Json) : RpcMessage
| response (id : Nat) (result : RpcResult) : RpcMessage

/-- serde serialization of RpcError in declaration order; a missing data
field serializes as JSON null (serde default for Option). -/
def encodeError (e : RpcError) : Json :=
.obj [("code", .num e.code), ("message", .str e.message), ("data", e.data.getD .null)]

/-- encode: the JSON document serialized onto one wire line.  Requests and
notifications follow the serde field order of RpcRequest and RpcNotification
in src/client.rs (a None params serializes as null); responses follow the
wire shape {jsonrpc, id, result | error}.  The serialization of this JSON
document to bytes is performed by the external serde_json library and is
modelled at the AST level; the newline framing is `frame` below. -/
def encode : RpcMessage → Json
| .request id method params =>
  .obj [("jsonrpc", .str "2.0"), ("id", .num (Int.ofNat id)), ("method", .str method),
        ("params", params)]
| .notification method params =>
  .obj [("jsonrpc", .str "2.0"), ("method", .str method), ("params", params.getD .null)]
| .response id (.success r) =>
  .obj [("jsonrpc", .str "2.0"), ("id", .num (Int.ofNat id)), ("result", r)]
| .response id (.error e) =>
  .obj [("jsonrpc", .str "2.0"), ("id", .num (Int.ofNat id)), ("error", encodeError e)]

/-- Read an optional JSON field the way serde reads an Option<Value> field:
an absent field and an explicit null both give None. -/
def decodeOptField (o : List (String × Json)) (k : String) : Option Json :=
match o.lookup k with
| none => none
| some .null => none
| some v => some v

/-- Deserialization of RpcError from a JSON value (serde derive on
src/client.rs RpcError): integer code, string message, optional data. -/
def decodeError (j : Json) : Option RpcError :=
match j with
| .obj o =>
  match o.lookup "code", o.lookup "message" with
  | some (.num c), some (.str m) =>
    some { code := c, message := m, data := decodeOptField o "data" }
  | _, _ => none
| _ => none

/-- Modelled from the spec: the codec classification of one parsed line —
a Request has id and method, a Notification has method and no id, a Response
has id and one of result/error (result tried first, matching the untagged
order of RpcResult in src/client.rs, whose receive_response is the only
decoder in the repository and parses responses only); anything else is a
protocol error (none). -/
def decode (j : Json) : Option RpcMessage :=
match j with
| .obj o =>
  match o.lookup "id", o.lookup "method" with
  | some (.num (.ofNat id)), some (.str method) =>
    match o.lookup "params" with
    | some p => some (.request id method p)
    | none => none
  | none, some (.str method) => some (.notification method (decodeOptField o "params"))
  | some (.num (.ofNat id)), none =>
    match o.lookup "result" with
    | some r => some (.response id (.success r))
    | none =>
      match o.lookup "error" with
      | some e =>
        match decodeError e with
        | some err => some (.response id (.error err))
        | none => none
      | none => none
  | _, _ => none
| _ => none

/-- Whether a message carries an explicit JSON null in an optional field
(notification params or error data).  Such a message serializes identically
to the same message with the field absent, so no decoder can distinguish
the two. -/
def hasNullOptionalField : RpcMessage → Bool
| .notification _ (some .null) => true
| .response _ (.error ⟨_, _, some .null⟩) => true
| _ => false

/-- Split a character list at the first occurrence of c: the part before
and the part after, or none when c does not occur. -/
def splitFirstChar (c : Char) : List Char → Option (List Char × List Char)
| [] => none
| x :: xs =>
  if x == c then some ([], xs)
  else
    match splitFirstChar c xs with
    | some (k, v) => some (x :: k, v)
    | none => none

/-- frame: append the single terminating newline to one serialized message
(send_request in src/client.rs pushes one newline and writes the line). -/
def frame (s : String) : String := s ++ "\n"

/-- unframe: recover the serialized message from one wire line — the content
before the newline, which must terminate the line (receive_response in
src/client.rs reads exactly one newline-terminated line). -/
def unframe (line : String) : Option String :=
match splitFirstChar '\n' line.data with
| some (content, []) => some (String.mk content)
| _ => none

-- --- Client command parsing (src/main.rs lines 173..214) ---

/-- One message sent by the client over its connection, abstracted to what
the claims distinguish: the handshake initialize request, the initialized
notification, the tools/list request, and the tools/call request with its
tool name and arguments object. -/
inductive Sent where
| initializeRequest : Sent
| initializedNotification : Sent
| toolsListRequest : Sent
| toolsCallRequest (name : String) (arguments : List (String × Json)) : Sent

/-- arg.splitn(2, '=') from src/main.rs line 196, as the optional
(key, value) pair: the text before the first '=' and everything after it;
none when the argument contains no '='. -/
def splitFirstEq (arg : String) : Option (String × String) :=
match splitFirstChar '=' arg.data with
| some (k, v) => some (String.mk k, String.mk v)
| none => none

/-- serde_json::Map::insert: overwrite an existing key, else append.  (The
key ordering of the underlying map is not observable by any claim.) -/
def mapInsert (m : List (String × Json)) (k : String) (v : Json) : List (String × Json) :=
if m.any (fun p => p.1 = k) then m.map (fun p => if p.1 = k then (k, v) else p)
else m ++ [(k, v)]

/-- The parameter-building loop of src/main.rs lines 194..204: each argument
splits at its first '=' into a key and a value inserted as a JSON string;
the first argument without '=' aborts with the invalid-parameter error. -/
def buildParams : List (String × Json) → List String → Except String (List (String × Json))
| m, [] => .ok m
| m, arg :: rest =>
  match splitFirstEq arg with
  | some (k, v) => buildParams (mapInsert m k (.str v)) rest
  | none =>
    .error ("Invalid parameter format: \x27" ++ arg ++ "\x27. Expected \x27key=value\x27.")

/-- run_client_command from src/main.rs lines 173..214: requires a live
server (server_is_running), connects, always sends the initialize request
and the initialized notification, then handles the subcommand: list sends
tools/list; call parses key=value parameters and sends tools/call, aborting
with an error when a parameter is malformed or the tool name is missing.
The network is modelled as always deliverable (connection failures decide
no claim); the result pairs the messages sent with the command outcome. -/
def run_client_command (s : SysState) (args : List String) : List Sent × Except String Unit :=
match (server_is_running s).1 with
| none =>
  ([], .error "Server is not running. Please start it first with \x27copilot_mcp_tool start\x27.")
| some _ =>
  let handshake := [Sent.initializeRequest, Sent.initializedNotification]
  match (args.get? 1).getD "" with
  | "list" => (handshake ++ [Sent.toolsListRequest], .ok ())
  | "call" =>
    match args.get? 2 with
    | none =>
      (handshake, .error "Tool name is required for \x27call\x27. E.g., \x27call echo_message message=\x22hello world\x22\x27")
    | some toolName =>
      match buildParams [] (args.drop 3) with
      | .ok params => (handshake ++ [Sent.toolsCallRequest toolName params], .ok ())
      | .error e => (handshake, .error e)
  | _ => (handshake, .ok ())

-- --- Helper lemmas on substring containment ---

theorem leadsChars_self (l : List Char) : leadsChars l l = true := by
induction l with
| nil => rfl
| cons a t ih => simp [leadsChars, ih]

theorem containsSub_refl (b : List Char) : containsSub b b = true := by
cases b with
| nil => rfl
| cons h t => simp [containsSub, leadsChars_self]

theorem containsSub_append (a b : List Char) : containsSub b (a ++ b) = true := by
induction a with
| nil => simpa using containsSub_refl b
| cons x xs ih =>
  show containsSub b (x :: (xs ++ b)) = true
  simp [containsSub, ih]

theorem strContainsSub_append (a b : String) : strContainsSub b (a ++ b) = true := by
simp [strContainsSub, String.data_append, containsSub_append]

-- --- Theorems for claims C5, C6, C7, C8 ---

/-- C5: for every arguments object and every SystemCommand backend,
dispatching a tool call to a name that is not registered returns
McpError::method_not_found (kind MethodNotFound); the dispatcher is a total
function, so it never panics or crashes the server. -/
theorem C5_unknown_tool_method_not_found (kill : KillProcessInput → CallToolResult)
    (name : String) (args : List (String × Json))
    (h1 : name ≠ "echo_message") (h2 : name ≠ "kill_process") :
    EchoServerTool.call_tool kill name args = .error McpError.method_not_found := by
simp [EchoServerTool.call_tool, h1, h2]

/-- Witness for C5 at the concrete unregistered name "nonexistent_tool" with
empty arguments against the default LibSystemCommand backend. -/
theorem C5_witness :
    EchoServerTool.call_tool LibSystemCommand.kill_process "nonexistent_tool" [] =
      .error McpError.method_not_found :=
C5_unknown_tool_method_not_found LibSystemCommand.kill_process "nonexistent_tool" []
  (by decide) (by decide)

/-- C6: dispatching "echo_message" with arguments {"message": s} returns a
success ToolCallResult whose payload is the string "Echoing: " followed by
s, for every message string s; in particular {"message":"hi"} yields
"Echoing: hi". -/
theorem C6_echo_message (s : String) :
    EchoServerTool.call_tool LibSystemCommand.kill_process "echo_message"
      [("message", .str s)] = .ok (.structured (.str ("Echoing: " ++ s))) ∧
    EchoServerTool.call_tool LibSystemCommand.kill_process "echo_message"
      [("message", .str "hi")] = .ok (.structured (.str "Echoing: hi")) :=
⟨rfl, rfl⟩

/-- C7: every SystemCommand backend method returns a ToolCallResult value
(a total function of os, oracle outcome and input — nothing escapes the
boundary), and each failure of the external-binary kill_process becomes a
structured error whose payload embeds the underlying failure text: the OS
name for an unsupported OS, the spawn error text for a failed execution,
and the captured stderr for a non-success exit status.  All remaining
methods of both variants return fixed structured errors. -/
theorem C7_system_command_contract (os : String)
    (run : String × List String → Except String ProcessOutput)
    (input : KillProcessInput) :
    ((∃ v, BinSystemCommand.kill_process os run input = .structured v) ∨
     (∃ v, BinSystemCommand.kill_process os run input = .structuredError v)) ∧
    (¬(os = "windows" ∨ os = "linux" ∨ os = "macos") →
      BinSystemCommand.kill_process os run input =
        .structuredError (.obj [("error", .str ("Unsupported operating system: " ++ os))]) ∧
      strContainsSub os ("Unsupported operating system: " ++ os) = true) ∧
    (∀ output, (os = "windows" ∨ os = "linux" ∨ os = "macos") →
      run (BinSystemCommand.killCommand os input.pid) = .ok output →
      output.success = false →
      BinSystemCommand.kill_process os run input =
        .structuredError (.obj
          [("error", .str ("Failed to kill process " ++ toString input.pid ++ ": "
            ++ output.stderr)),
           ("stdout", .str output.stdout),
           ("stderr", .str output.stderr)]) ∧
      strContainsSub output.stderr
        ("Failed to kill process " ++ toString input.pid ++ ": " ++ output.stderr) = true) ∧
    (∀ e, (os = "windows" ∨ os = "linux" ∨ os = "macos") →
      run (BinSystemCommand.killCommand os input.pid) = .error e →
      BinSystemCommand.kill_process os run input =
        .structuredError (.obj
          [("error", .str ("Failed to execute kill command for PID " ++ toString input.pid
            ++ ": " ++ e))]) ∧
      strContainsSub e
        ("Failed to execute kill command for PID " ++ toString input.pid ++ ": " ++ e) = true) ∧
    ((∃ v, LibSystemCommand.kill_process input = .structuredError v) ∧
     (∃ v, LibSystemCommand.list_processes = .structuredError v) ∧
     (∃ v, LibSystemCommand.get_memory_usage = .structuredError v) ∧
     (∃ v, LibSystemCommand.get_disk_usage = .structuredError v) ∧
     (∃ v, LibSystemCommand.list_ports = .structuredError v) ∧
     (∃ v, BinSystemCommand.list_processes = .structuredError v) ∧
     (∃ v, BinSystemCommand.get_memory_usage = .structuredError v) ∧
     (∃ v, BinSystemCommand.get_disk_usage = .structuredError v) ∧
     (∃ v, BinSystemCommand.list_ports = .structuredError v)) := by
refine ⟨?_, ?_, ?_, ?_, ?_⟩
· cases h : BinSystemCommand.kill_process os run input with
  | structured v => exact Or.inl ⟨v, rfl⟩
  | structuredError v => exact Or.inr ⟨v, rfl⟩
· intro h
  refine ⟨?_, ?_⟩
  · simp [BinSystemCommand.kill_process, h]
  · exact strContainsSub_append "Unsupported operating system: " os
· intro output hos hrun hfail
  refine ⟨?_, ?_⟩
  · simp [BinSystemCommand.kill_process, hos, hrun, hfail]
  · exact strContainsSub_append
      ("Failed to kill process " ++ toString input.pid ++ ": ") output.stderr
· intro e hos hrun
  refine ⟨?_, ?_⟩
  · simp [BinSystemCommand.kill_process, hos, hrun]
  · exact strContainsSub_append
      ("Failed to execute kill command for PID " ++ toString input.pid ++ ": ") e
· exact ⟨⟨_, rfl⟩, ⟨_, rfl⟩, ⟨_, rfl⟩, ⟨_, rfl⟩, ⟨_, rfl⟩, ⟨_, rfl⟩, ⟨_, rfl⟩, ⟨_, rfl⟩, ⟨_, rfl⟩⟩

/-- Witness for C7: on linux, with the external kill reporting a non-success
exit status and the OS failure text on stderr, kill_process for pid 99999
returns the structured error that embeds that text. -/
theorem C7_witness :
    BinSystemCommand.kill_process "linux"
      (fun _ => .ok { success := false, stdout := "", stderr := "no such process" })
      { pid := 99999 } =
      .structuredError (.obj
        [("error", .str ("Failed to kill process " ++ toString 99999 ++ ": "
          ++ "no such process")),
         ("stdout", .str ""),
         ("stderr", .str "no such process")]) ∧
    strContainsSub "no such process"
      ("Failed to kill process " ++ toString 99999 ++ ": " ++ "no such process") = true :=
(C7_system_command_contract "linux"
  (fun _ => .ok { success := false, stdout := "", stderr := "no such process" })
  { pid := 99999 }).2.2.1
  { success := false, stdout := "", stderr := "no such process" }
  (Or.inr (Or.inl rfl)) rfl rfl

/-- C8: list_tools returns every registered tool exactly once (no missing
tool, no duplicate), in registration order (echo_message then
kill_process), and each returned input schema validates a known-good sample
input that the tool handler accepts (the dispatcher answers it with a
success for echo_message and with the backend result for kill_process). -/
theorem C8_list_tools_complete :
    EchoServerTool.list_tools.map (fun t => t.name) = ["echo_message", "kill_process"] ∧
    (EchoServerTool.list_tools.map (fun t => t.name)).Nodup ∧
    validateObjectSchema EchoInputSchema (.obj [("message", .str "hi")]) = true ∧
    EchoServerTool.call_tool LibSystemCommand.kill_process "echo_message"
      [("message", .str "hi")] = .ok (.structured (.str "Echoing: hi")) ∧
    validateObjectSchema KillProcessInputSchema (.obj [("pid", .num 1234)]) = true ∧
    (∃ r, EchoServerTool.call_tool LibSystemCommand.kill_process "kill_process"
      [("pid", .num 1234)] = .ok r) := by
refine ⟨rfl, by decide, rfl, rfl, rfl, ⟨_, rfl⟩⟩

-- --- Helper lemmas on splitFirstChar ---

theorem splitFirstChar_append (c : Char) (k v : List Char) (h : c ∉ k) :
    splitFirstChar c (k ++ c :: v) = some (k, v) := by
induction k with
| nil =>
  show splitFirstChar c (c :: v) = some ([], v)
  simp [splitFirstChar]
| cons x xs ih =>
  have hx : (x == c) = false := by
    refine beq_eq_false_iff_ne.mpr ?_
    intro hxc
    exact h (by simp [hxc])
  have htail : c ∉ xs := fun hm => h (List.mem_cons_of_mem x hm)
  show splitFirstChar c (x :: (xs ++ c :: v)) = some (x :: xs, v)
  simp [splitFirstChar, hx, ih htail]

theorem splitFirstChar_not_mem (c : Char) (l : List Char) (h : c ∉ l) :
    splitFirstChar c l = none := by
induction l with
| nil => rfl
| cons x xs ih =>
  have hx : (x == c) = false := by
    refine beq_eq_false_iff_ne.mpr ?_
    intro hxc
    exact h (by simp [hxc])
  have htail : c ∉ xs := fun hm => h (List.mem_cons_of_mem x hm)
  simp [splitFirstChar, hx, ih htail]

-- --- Theorems for claims C4, C10 ---

/-- The notification whose params field is an explicit JSON null. -/
def nullParamsNotification : RpcMessage :=
.notification "notifications/initialized" (some .null)

/-- C4 counterexample: a notification whose params is an explicit JSON null
serializes identically to the same notification with params absent (serde
writes None as null), so decoding its encoding yields the params-absent
message, not the original — the round-trip fails at this concrete message. -/
theorem C4_counterexample :
    decode (encode nullParamsNotification) ≠ some nullParamsNotification := by
intro h
rw [show decode (encode nullParamsNotification) =
  some (.notification "notifications/initialized" none) from rfl] at h
simp [nullParamsNotification] at h

/-- C4 amended: decode inverts encode for every RpcMessage whose optional
JSON fields (notification params, error data), when present, are not the
JSON null value (for those the wire line is identical to the field-absent
message, so no decoder can recover them); and the framing appends a single
newline which unframe removes again for every newline-free serialization. -/
theorem C4_codec_roundtrip (m : RpcMessage) (s : String)
    (hm : hasNullOptionalField m = false) (hs : Char.ofNat 10 ∉ s.data) :
    decode (encode m) = some m ∧ unframe (frame s) = some s := by
constructor
· cases m with
  | request id method params => rfl
  | notification method params =>
    cases params with
    | none => rfl
    | some v =>
      cases v with
      | null => simp [hasNullOptionalField] at hm
      | bool b => rfl
      | num n => rfl
      | str s => rfl
      | arr xs => rfl
      | obj fields => rfl
  | response id result =>
    cases result with
    | success r => rfl
    | error e =>
      obtain ⟨c, msg, d⟩ := e
      cases d with
      | none => rfl
      | some v =>
        cases v with
        | null => simp [hasNullOptionalField] at hm
        | bool b => rfl
        | num n => rfl
        | str s => rfl
        | arr xs => rfl
        | obj fields => rfl
· have hdata : (frame s).data = s.data ++ (Char.ofNat 10) :: [] := by
    simp [frame, String.data_append]
  simp [unframe, hdata, splitFirstChar_append (Char.ofNat 10) s.data [] hs]

/-- Witness for C4 at a concrete request and a concrete newline-free line. -/
theorem C4_witness :
    decode (encode (.request 1 "initialize" (.obj []))) =
      some (.request 1 "initialize" (.obj [])) ∧
    unframe (frame "abc") = some "abc" :=
C4_codec_roundtrip (.request 1 "initialize" (.obj [])) "abc" rfl (by decide)

-- --- Helper lemmas for the client command ---

theorem buildParams_error_of_bad_arg (a : String) (hn : splitFirstEq a = none) :
    ∀ l, a ∈ l → ∀ m, ∃ e, buildParams m l = Except.error e := by
intro l
induction l with
| nil => intro ha; cases ha
| cons x xs ih =>
  intro ha m
  rcases List.mem_cons.mp ha with h | h
  · subst h
    refine ⟨"Invalid parameter format: \x27" ++ a ++ "\x27. Expected \x27key=value\x27.", ?_⟩
    simp [buildParams, hn]
  · cases hx : splitFirstEq x with
    | some kv =>
      obtain ⟨e, he⟩ := ih h (mapInsert m kv.1 (.str kv.2))
      exact ⟨e, by simp [buildParams, hx, he]⟩
    | none =>
      refine ⟨"Invalid parameter format: \x27" ++ x ++ "\x27. Expected \x27key=value\x27.", ?_⟩
      simp [buildParams, hx]

theorem mapInsert_values_str (m : List (String × Json)) (k v : String)
    (hm : ∀ p ∈ m, ∃ t, p.2 = Json.str t) :
    ∀ p ∈ mapInsert m k (.str v), ∃ t, p.2 = Json.str t := by
intro p hp
unfold mapInsert at hp
by_cases h : m.any (fun q => q.1 = k)
· rw [if_pos h] at hp
  obtain ⟨q, hq, hpq⟩ := List.mem_map.mp hp
  by_cases hqk : q.1 = k
  · rw [if_pos hqk] at hpq
    exact ⟨v, by rw [← hpq]⟩
  · rw [if_neg hqk] at hpq
    exact hpq ▸ hm q hq
· rw [if_neg h] at hp
  rcases List.mem_append.mp hp with h1 | h1
  · exact hm p h1
  · have : p = (k, Json.str v) := by simpa using h1
    exact ⟨v, by rw [this]⟩

theorem buildParams_values_str (l : List String) :
    ∀ m r, (∀ p ∈ m, ∃ t, p.2 = Json.str t) → buildParams m l = Except.ok r →
    ∀ p ∈ r, ∃ t, p.2 = Json.str t := by
induction l with
| nil =>
  intro m r hm h
  have : m = r := by simpa [buildParams] using h
  exact this ▸ hm
| cons x xs ih =>
  intro m r hm h
  cases hx : splitFirstEq x with
  | none => simp [buildParams, hx] at h
  | some kv =>
    rw [buildParams, hx] at h
    exact ih _ r (mapInsert_values_str m kv.1 kv.2 hm) h

/-- A filesystem state whose lock file records the live pid 7. -/
def liveState : SysState := { fs := .valid { pid := 7, port := 9 }, live := [7] }

/-- C10 counterexample: invoking the call subcommand with the malformed
parameter "oops" does fail with the invalid-parameter error, but only after
the initialize request (and the initialized notification) have already been
sent to the server — refuting the claim that the failure precedes any
request being sent. -/
theorem C10_counterexample :
    (run_client_command liveState ["copilot_mcp_tool", "call", "echo_message", "oops"]).2 =
      .error ("Invalid parameter format: \x27oops\x27. Expected \x27key=value\x27.") ∧
    Sent.initializeRequest ∈
      (run_client_command liveState ["copilot_mcp_tool", "call", "echo_message", "oops"]).1 := by
constructor
· rfl
· have h : (run_client_command liveState
      ["copilot_mcp_tool", "call", "echo_message", "oops"]).1 =
      [Sent.initializeRequest, Sent.initializedNotification] := rfl
  rw [h]
  exact List.mem_cons_self _ _

/-- C10 amended: every call-subcommand argument after the tool name splits
at its first '=' into a key and a value, the value is always transmitted as
a JSON string, and an argument without '=' makes the command fail before
the tools/call request is sent — though after the handshake initialize
request and initialized notification have been sent. -/
theorem C10_call_parameter_handling :
    (∀ k v : String, Char.ofNat 61 ∉ k.data →
      splitFirstEq (k ++ "=" ++ v) = some (k, v)) ∧
    (∀ arg : String, Char.ofNat 61 ∉ arg.data → splitFirstEq arg = none) ∧
    (∀ l r, buildParams [] l = Except.ok r → ∀ p ∈ r, ∃ t, p.2 = Json.str t) ∧
    (∀ s args a, (server_is_running s).1 ≠ none →
      (args.get? 1).getD "" = "call" →
      (∃ t, args.get? 2 = some t) →
      a ∈ args.drop 3 → splitFirstEq a = none →
      ∃ e, run_client_command s args =
        ([Sent.initializeRequest, Sent.initializedNotification], Except.error e)) := by
refine ⟨?_, ?_, ?_, ?_⟩
· intro k v hk
  have hdata : (k ++ "=" ++ v).data = k.data ++ (Char.ofNat 61) :: v.data := by
    simp [String.data_append]
  simp [splitFirstEq, hdata, splitFirstChar_append (Char.ofNat 61) k.data v.data hk]
· intro arg ha
  simp [splitFirstEq, splitFirstChar_not_mem (Char.ofNat 61) arg.data ha]
· intro l r h
  exact buildParams_values_str l [] r (by intro p hp; cases hp) h
· intro s args a hrun hcmd ht hmem hbad
  obtain ⟨d, hd⟩ := Option.ne_none_iff_exists'.mp hrun
  obtain ⟨t, htool⟩ := ht
  obtain ⟨e, he⟩ := buildParams_error_of_bad_arg a hbad (args.drop 3) hmem []
  simp only [List.get?_eq_getElem?] at hcmd htool
  exact ⟨e, by simp [run_client_command, hd, hcmd, htool, he]⟩

/-- Witness for C10: the parameter message="hello world" splits at the first
equals sign; with a live server and the malformed parameter "oops" the call
command errors after sending exactly the handshake messages. -/
theorem C10_witness :
    splitFirstEq ("message" ++ "=" ++ "hello world") = some ("message", "hello world") ∧
    ∃ e, run_client_command liveState ["copilot_mcp_tool", "call", "echo_message", "oops"] =
      ([Sent.initializeRequest, Sent.initializedNotification], Except.error e) := by
refine ⟨?_, ?_⟩
· exact C10_call_parameter_handling.1 "message" "hello world" (by decide)
· exact C10_call_parameter_handling.2.2.2 liveState
    ["copilot_mcp_tool", "call", "echo_message", "oops"] "oops"
    (by decide) rfl ⟨"echo_message", rfl⟩ (by simp) rfl

end CopilotMcp
